import Mathlib

/-!
Verification of the Intelligent Order Parameter Prefill system.

The repository ships the TypeScript order-ticket frontend (`order-ticket`
component, `lib/types.ts`, `lib/api.ts`) together with the rulebook and
solution documents describing the Python prefill engine
(`prefill_service.py`).  The engine source itself is not part of the
repository snapshot, so the engine-side definitions below are modelled
from the specification (marked `Modelled from the spec:`); the
frontend-side definitions are translated from the TypeScript sources.
All numeric computation uses exact rationals (`ℚ`) and integers.
-/

namespace Prefill

/-- The four execution-algorithm choices (`AlgoType` in `lib/types.ts`). -/
inductive AlgoType
  | NONE
  | POV
  | VWAP
  | ICEBERG
  deriving DecidableEq, Repr

/-- Order direction (`Direction` in `lib/types.ts`). -/
inductive Direction
  | BUY
  | SELL
  deriving DecidableEq, Repr

/-- Order type (`OrderType` in `lib/types.ts`). -/
inductive OrderType
  | MARKET
  | LIMIT
  | STOP_LOSS
  deriving DecidableEq, Repr

/-- Time-in-force (`TIF` in `lib/types.ts`). -/
inductive TIF
  | GFD
  | IOC
  | FOK
  | GTC
  | GTD
  deriving DecidableEq, Repr

/-- Client classification tag: the fixed enumeration used by the engine
(`eod_compliance`, `hft`, `stealth`, `conservative`, `arrival_price`,
or no tag). -/
inductive ClientTag
  | eod_compliance
  | hft
  | stealth
  | conservative
  | arrival_price
  | untagged
  deriving DecidableEq, Repr

/-- Modelled from the spec: the structured intent extracted from
free-text order notes by `_parse_order_notes` (algo hint, deadline
proximity in minutes, urgency/patience keyword flags, completion
mandate, TIF hint). -/
structure ParsedNotes where
  algoHint : Option AlgoType
  deadlineMins : Option ℚ
  urgentKw : Bool
  patientKw : Bool
  completeKw : Bool
  tifHint : Option TIF
  deriving DecidableEq, Repr

/-- Truncation toward zero, the behaviour of Python `int()` on a float. -/
def ratTrunc (q : ℚ) : ℤ :=
  if 0 ≤ q then ⌊q⌋ else -⌊-q⌋

/-- One entry of the urgency breakdown kept by the scorer for display:
factor name, matched condition, and the score delta. -/
structure BreakdownEntry where
  factor : String
  detail : String
  delta : ℚ
  deriving DecidableEq, Repr

/-- Modelled from the spec: the time-pressure entries of the urgency
breakdown. Brackets are tiered — the tightest bracket alone fires
(`<10min:+35, <20min:+25, <30min:+18, <60min:+10, >240min:−10`). -/
def timeEntries (ttc : ℚ) : List BreakdownEntry :=
  if ttc < 10 then [⟨"Time to close", "< 10 min", 35⟩]
  else if ttc < 20 then [⟨"Time to close", "< 20 min", 25⟩]
  else if ttc < 30 then [⟨"Time to close", "< 30 min", 18⟩]
  else if ttc < 60 then [⟨"Time to close", "< 60 min", 10⟩]
  else if ttc > 240 then [⟨"Time to close", "> 240 min", -10⟩]
  else []

/-- Modelled from the spec: the client-tag entry of the urgency
breakdown (`eod_compliance:+12, hft:+18, stealth:−12, conservative:−15,
arrival_price:+5`). -/
def tagEntries : ClientTag → List BreakdownEntry
  | .eod_compliance => [⟨"Client tag", "eod_compliance", 12⟩]
  | .hft => [⟨"Client tag", "hft", 18⟩]
  | .stealth => [⟨"Client tag", "stealth", -12⟩]
  | .conservative => [⟨"Client tag", "conservative", -15⟩]
  | .arrival_price => [⟨"Client tag", "arrival_price", 5⟩]
  | .untagged => []

/-- Modelled from the spec: the order-size entries of the urgency
breakdown; the single matching bracket of largest magnitude fires
(`>20%ADV:−12, >10%ADV:−5, <2%ADV:+10, <5%ADV:+5`). -/
def sizeEntries (sizePct : ℚ) : List BreakdownEntry :=
  if sizePct > 20 then [⟨"Order size", "> 20% ADV", -12⟩]
  else if sizePct > 10 then [⟨"Order size", "> 10% ADV", -5⟩]
  else if sizePct < 2 then [⟨"Order size", "< 2% ADV", 10⟩]
  else if sizePct < 5 then [⟨"Order size", "< 5% ADV", 5⟩]
  else []

/-- Modelled from the spec: the volatility entries of the urgency
breakdown (`>3%:−8, <1.5%:+5`). -/
def volEntries (vol : ℚ) : List BreakdownEntry :=
  if vol > 3 then [⟨"Volatility", "> 3%", -8⟩]
  else if vol < 3/2 then [⟨"Volatility", "< 1.5%", 5⟩]
  else []

/-- Modelled from the spec: the order-notes keyword entries of the
urgency breakdown (urgency keywords +20, patience keywords −15,
completion keywords +12). -/
def notesEntries (n : ParsedNotes) : List BreakdownEntry :=
  (if n.urgentKw then [⟨"Notes: urgency", "urgency keywords", 20⟩] else []) ++
  (if n.patientKw then [⟨"Notes: patience", "patience keywords", -15⟩] else []) ++
  (if n.completeKw then [⟨"Notes: get done", "completion keywords", 12⟩] else [])

/-- Modelled from the spec: the deadline-proximity entries of the
urgency breakdown (`deadline <30min:+20, <60min:+10`). -/
def deadlineEntries (n : ParsedNotes) : List BreakdownEntry :=
  match n.deadlineMins with
  | none => []
  | some d =>
    if d < 30 then [⟨"Notes: deadline", "< 30 min away", 20⟩]
    else if d < 60 then [⟨"Notes: deadline", "< 60 min away", 10⟩]
    else []

/-- Modelled from the spec: the risk-aversion tilt entry of the urgency
breakdown, `(50 − risk_aversion) × 0.15`. -/
def riskEntries (riskAversion : ℚ) : List BreakdownEntry :=
  [⟨"Risk aversion", "(50 - risk) x 0.15", (50 - riskAversion) * (15/100)⟩]

/-- Modelled from the spec: the ordered per-factor urgency breakdown
retained for display, the concatenation of every factor's entries. -/
def urgencyBreakdown (ttc : ℚ) (tag : ClientTag) (sizePct vol : ℚ)
    (n : ParsedNotes) (riskAversion : ℚ) : List BreakdownEntry :=
  timeEntries ttc ++ tagEntries tag ++ sizeEntries sizePct ++ volEntries vol ++
    notesEntries n ++ deadlineEntries n ++ riskEntries riskAversion

/-- Sum of the deltas of a breakdown. -/
def deltaSum (l : List BreakdownEntry) : ℚ :=
  (l.map BreakdownEntry.delta).sum

/-- Modelled from the spec: `_compute_urgency_score` — baseline 50 plus
the sum of every breakdown delta, truncated to an integer and clamped
to [0, 100] (`max(0, min(100, int(score)))`). -/
def computeUrgencyScore (ttc : ℚ) (tag : ClientTag) (sizePct vol : ℚ)
    (n : ParsedNotes) (riskAversion : ℚ) : ℤ :=
  max 0 (min 100 (ratTrunc (50 + deltaSum (urgencyBreakdown ttc tag sizePct vol n riskAversion))))

/-- The claim's reading of the time-pressure factor: a single adjustment
in which exactly one bracket (the tightest) fires. -/
def timeAdj (ttc : ℚ) : ℚ :=
  if ttc < 10 then 35 else if ttc < 20 then 25 else if ttc < 30 then 18
  else if ttc < 60 then 10 else if ttc > 240 then -10 else 0

/-- The claim's reading of the client-tag factor as a single adjustment. -/
def tagAdj : ClientTag → ℚ
  | .eod_compliance => 12
  | .hft => 18
  | .stealth => -12
  | .conservative => -15
  | .arrival_price => 5
  | .untagged => 0

/-- The claim's reading of the order-size factor: the single matching
bracket of largest magnitude. -/
def sizeAdj (sizePct : ℚ) : ℚ :=
  if sizePct > 20 then -12 else if sizePct > 10 then -5
  else if sizePct < 2 then 10 else if sizePct < 5 then 5 else 0

/-- The claim's reading of the volatility factor as a single adjustment. -/
def volAdj (vol : ℚ) : ℚ :=
  if vol > 3 then -8 else if vol < 3/2 then 5 else 0

/-- The claim's reading of the notes-keyword factors, summed. -/
def notesAdj (n : ParsedNotes) : ℚ :=
  (if n.urgentKw then 20 else 0) + (if n.patientKw then -15 else 0) +
    (if n.completeKw then 12 else 0)

/-- The claim's reading of the deadline-proximity factor. -/
def deadlineAdj (n : ParsedNotes) : ℚ :=
  match n.deadlineMins with
  | none => 0
  | some d => if d < 30 then 20 else if d < 60 then 10 else 0

/-- The risk-aversion tilt `(50 − risk_aversion) × 0.15`. -/
def riskTilt (riskAversion : ℚ) : ℚ := (50 - riskAversion) * (15/100)

/-- The trader-facing ±10 urgency nudge in the order ticket
(`nudgeUrgency` in the order-ticket component):
`Math.max(0, Math.min(100, form.urgency + delta))`. -/
def nudgeUrgency (urgency delta : ℤ) : ℤ :=
  max 0 (min 100 (urgency + delta))

/-- Modelled from the spec: the statistics `_get_historical_pattern`
derives from the last orders of a client+symbol pair, as far as the
algo-type and quantity resolvers consume them. -/
structure HistPattern where
  count : ℕ
  modeAlgo : AlgoType
  avgVolatility : ℚ
  medianQty : Option ℚ
  meanQty : ℚ
  deriving DecidableEq, Repr

/-- Modelled from the spec: the historical blend weight
`min(0.30, max(0, (count − 2) × 0.10))`. -/
def histWeight (count : ℕ) : ℚ :=
  min (3/10) (max 0 (((count : ℚ) - 2) * (1/10)))

/-- Modelled from the spec: the market-condition similarity ratio
`min(cur_vol, hist_vol) / max(cur_vol, hist_vol)`. -/
def volSimilarity (curVol histVol : ℚ) : ℚ :=
  min curVol histVol / max curVol histVol

/-- Modelled from the spec: the urgency×size fallback matrix of the algo
resolver (priority D), stratified by urgency tier (≥75 high, ≤25 low,
otherwise medium) and size tier; tier boundaries use inclusive lower
bounds. -/
def urgencySizeMatrix (urgency : ℤ) (sizePct : ℚ) : AlgoType :=
  if urgency ≥ 75 then
    if sizePct > 10 then .POV else if sizePct ≥ 3 then .POV else .NONE
  else if urgency ≤ 25 then
    if sizePct > 15 then .ICEBERG else if sizePct ≥ 5 then .VWAP else .NONE
  else
    if sizePct > 20 then .ICEBERG else if sizePct ≥ 10 then .VWAP
    else if sizePct ≥ 3 then .POV else .NONE

/-- Modelled from the spec: the client-tag rules of the algo resolver
(priority C, confidence 0.85–0.90): `eod_compliance→VWAP`,
`stealth→ICEBERG`, `arrival_price→POV`, `hft` with size<2%ADV→NONE. -/
def tagRule (tag : ClientTag) (sizePct : ℚ) : Option (AlgoType × ℚ) :=
  match tag with
  | .eod_compliance => some (.VWAP, 9/10)
  | .stealth => some (.ICEBERG, 9/10)
  | .arrival_price => some (.POV, 85/100)
  | .hft => if sizePct < 2 then some (.NONE, 85/100) else none
  | .conservative => none
  | .untagged => none

/-- Modelled from the spec: the algo-type priority chain, first match
wins — (A) explicit notes hint at confidence 0.95; (B) urgency ≥ 85 and
size < 5%ADV → NONE at 0.85; (C) client-tag rule; (D) the urgency×size
matrix (confidence 0.60–0.75, here 0.65), overridden by (E) the
historical mode algo when ≥3 records exist and
`hist_weight × similarity ≥ 0.20`. The cross-client signal (F) only
annotates the explanation and never changes the decision. -/
def resolveAlgoType (notes : ParsedNotes) (urgency : ℤ) (sizePct : ℚ)
    (tag : ClientTag) (hist : HistPattern) (curVol : ℚ) : AlgoType × ℚ :=
  match notes.algoHint with
  | some a => (a, 95/100)
  | none =>
    if urgency ≥ 85 ∧ sizePct < 5 then (.NONE, 85/100)
    else match tagRule tag sizePct with
    | some r => r
    | none =>
      if 3 ≤ hist.count ∧
          histWeight hist.count * volSimilarity curVol hist.avgVolatility ≥ 1/5 then
        (hist.modeAlgo, 13/20)
      else (urgencySizeMatrix urgency sizePct, 13/20)

/-- Modelled from the spec: the limit-price offset in basis points,
chosen by first match — urgency≥75→18, urgency≥50→12,
minutes-to-close<30→15, volatility>2.5%→12, else 8. -/
def limitOffsetBps (urgency : ℤ) (ttc vol : ℚ) : ℚ :=
  if urgency ≥ 75 then 18
  else if urgency ≥ 50 then 12
  else if ttc < 30 then 15
  else if vol > 5/2 then 12
  else 8

/-- Round a price to the instrument's tick grid using round-half-up to
the nearest tick. -/
def roundHalfUpTick (x tick : ℚ) : ℚ :=
  (⌊x / tick + 1/2⌋ : ℤ) * tick

/-- Modelled from the spec: the suggested limit price (computed only
when the order type is LIMIT and the last traded price is positive):
`price × (1 ± offset/10000)` — "+" for BUY, "−" for SELL — rounded
half-up to the nearest tick. -/
def suggestLimitPrice (dir : Direction) (ltp : ℚ) (urgency : ℤ)
    (ttc vol tick : ℚ) : ℚ :=
  let off := limitOffsetBps urgency ttc vol
  let raw :=
    match dir with
    | .BUY => ltp * (1 + off / 10000)
    | .SELL => ltp * (1 - off / 10000)
  roundHalfUpTick raw tick

/-- The list of all algo types, in the fixed order used by the engine. -/
def allAlgoTypes : List AlgoType := [.NONE, .POV, .VWAP, .ICEBERG]

/-- Modelled from the spec: the context the why-not explainer
conditions its rejection text on (size ratio, tag, volatility,
minutes-to-close, urgency). -/
structure WhyNotContext where
  sizePct : ℚ
  tag : ClientTag
  vol : ℚ
  ttc : ℚ
  urgency : ℤ
  deriving DecidableEq, Repr

/-- Modelled from the spec: the context-specific rejection rationale for
one non-chosen algo type (`_generate_why_not` rule examples). -/
def whyNotText (a : AlgoType) (ctx : WhyNotContext) : String :=
  match a with
  | .NONE =>
    if ctx.sizePct > 3 then
      "Direct execution skipped - order is a large share of ADV; an algorithm can slice it to reduce footprint."
    else "Direct execution considered but an algorithm better fits the context."
  | .POV =>
    if ctx.tag = .eod_compliance then
      "POV not ideal for EOD compliance - it does not guarantee completion by close."
    else if ctx.sizePct > 20 then
      "POV risky for very large orders - fixed participation at this size would signal intent."
    else "POV considered but another algorithm better fits the order profile."
  | .VWAP =>
    if ctx.ttc < 20 then
      "VWAP not recommended - insufficient time window for volume-weighted distribution."
    else if ctx.tag = .stealth ∧ ctx.sizePct > 15 then
      "VWAP less suitable for stealth - predictable volume patterns can be detected."
    else "VWAP considered but another algorithm better fits the order profile."
  | .ICEBERG =>
    if ctx.sizePct < 3 then
      "ICEBERG unnecessary - the full quantity can be absorbed without significant market impact."
    else if ctx.urgency > 75 then
      "ICEBERG too slow for current urgency - it limits fill speed."
    else "ICEBERG considered but another algorithm better fits the order profile."

/-- Modelled from the spec: the WhyNotSet — for each algo type other
than the chosen one, a rejection explanation. -/
def whyNotSet (chosen : AlgoType) (ctx : WhyNotContext) : List (AlgoType × String) :=
  (allAlgoTypes.filter (fun a => a ≠ chosen)).map (fun a => (a, whyNotText a ctx))

/-- The key set of a WhyNotSet. -/
def whyNotKeys (chosen : AlgoType) (ctx : WhyNotContext) : List AlgoType :=
  (whyNotSet chosen ctx).map Prod.fst

/-- Modelled from the spec: the quantity-hint confidence
`0.4 + min(0.3, order_count × 0.04)`. -/
def quantityHintConfidence (orderCount : ℕ) : ℚ :=
  2/5 + min (3/10) ((orderCount : ℚ) * (4/100))

/-- Modelled from the spec: the quantity-hint resolver — it fires only
when the trader has not supplied a quantity, suggesting the historical
median (mean as fallback) with the scaled confidence. -/
def quantityHint (traderQty : Option ℚ) (hist : HistPattern) : Option (ℚ × ℚ) :=
  match traderQty with
  | some _ => none
  | none =>
    if hist.count = 0 then none
    else some (hist.medianQty.getD hist.meanQty, quantityHintConfidence hist.count)

/-! ### The external prefill interface, translated from `lib/types.ts`
and the order-ticket component. -/

/-- The optional-or-required field names declared on the `PrefillRequest`
interface in `lib/types.ts`, in declaration order. -/
def prefillRequestFields : List String :=
  ["client_id", "symbol", "direction", "quantity", "urgency", "order_notes"]

/-- The field names declared on the `PrefillResponse` interface in
`lib/types.ts`, in declaration order. -/
def prefillResponseFields : List String :=
  ["suggestions", "explanations", "confidence", "urgency_score",
   "computed_urgency", "scenario_tag", "scenario_label", "why_not"]

/-- The field names of the request body actually sent by
`triggerPrefill` in the order-ticket component. -/
def triggerPrefillBodyFields : List String :=
  ["client_id", "symbol", "direction", "urgency", "quantity",
   "risk_aversion", "order_notes"]

/-- The per-entry field names the order-ticket component reads from the
(undeclared) `urgency_breakdown` list of a prefill response. -/
def breakdownEntryFields : List String := ["factor", "detail", "delta"]

/-! ### The order-ticket form state machine, translated from the
order-ticket component (`triggerPrefill`, `update`,
`handleUrgencyChange`, `nudgeUrgency`). -/

/-- The form fields a prefill response can populate, as enumerated by
the per-field statements inside `triggerPrefill`'s `setForm`. -/
inductive FField
  | algo_type
  | order_type
  | limit_price
  | start_time
  | end_time
  | aggression_level
  | target_participation_rate
  | min_order_size
  | max_order_size
  | volume_curve
  | max_volume_pct
  | display_quantity
  | quantity
  | order_notes
  | tif
  | get_done
  deriving DecidableEq, Repr

/-- Every prefillable form field, in the order `triggerPrefill` visits
them. -/
def allFFields : List FField :=
  [.algo_type, .order_type, .limit_price, .start_time, .end_time, .aggression_level,
   .target_participation_rate, .min_order_size, .max_order_size, .volume_curve,
   .max_volume_pct, .display_quantity, .quantity, .order_notes, .tif, .get_done]

/-- A prefill response as the order-ticket component consumes it: the
per-field suggestions plus the computed urgency score. Suggestion
values are modelled by their non-empty string rendering (all are
non-empty strings or non-zero numbers at the source); for `get_done`
the component tests presence (`!== undefined`), so `some "false"`
still counts as a suggestion. -/
structure PrefillResp where
  suggestions : FField → Option String
  urgencyScore : ℤ

/-- JavaScript truthiness of an optional suggestion value
(`undefined` and the empty string are falsy). -/
def isTruthy : Option String → Bool
  | none => false
  | some v => v ≠ ""

/-- The full state the order-ticket component keeps for prefill
interplay: form values, the urgency slider value, the sparkle-marked
prefilled set, the manual-override set (`overriddenFieldsRef`) and the
manual-urgency marker (`urgencyManualRef`). -/
structure TicketState where
  form : FField → String
  formUrgency : ℤ
  prefilled : List FField
  overridden : List FField
  urgencyManual : Option ℤ

/-- The per-field application guard inside `triggerPrefill`'s
`setForm`: `quantity` and `order_notes` apply only while the field is
empty; `get_done` applies when the suggestion is present and the field
is not overridden; every other field applies when the suggestion is
truthy and the field is not overridden. -/
def applyGuard (r : PrefillResp) (form : FField → String)
    (ov : List FField) (f : FField) : Bool :=
  if f = .quantity ∨ f = .order_notes then
    isTruthy (r.suggestions f) && (form f == "")
  else if f = .get_done then
    (r.suggestions f).isSome && !(ov.contains f)
  else
    isTruthy (r.suggestions f) && !(ov.contains f)

/-- Applying a prefill response to the ticket (the `setForm` +
`setPrefilledFields` block of `triggerPrefill`): guarded fields take
the suggested value, the prefilled set becomes the set of fields just
filled, and the urgency slider takes the response's score only while
the trader has not manually set urgency. -/
def applyPrefill (r : PrefillResp) (st : TicketState) : TicketState where
  form := fun f =>
    if applyGuard r st.form st.overridden f then (r.suggestions f).getD (st.form f)
    else st.form f
  formUrgency := if st.urgencyManual = none then r.urgencyScore else st.formUrgency
  prefilled := allFFields.filter (applyGuard r st.form st.overridden)
  overridden := st.overridden
  urgencyManual := st.urgencyManual

/-- A manual edit of one form field (the `update` handler): the value
changes, and if the field carried a prefill sparkle it is recorded in
the overridden set and loses the sparkle. -/
def updateField (f : FField) (v : String) (st : TicketState) : TicketState where
  form := fun g => if g = f then v else st.form g
  formUrgency := st.formUrgency
  prefilled := if st.prefilled.contains f then st.prefilled.erase f else st.prefilled
  overridden := if st.prefilled.contains f then f :: st.overridden else st.overridden
  urgencyManual := st.urgencyManual

/-- A manual urgency slider change (`handleUrgencyChange`): the slider
value is stored and remembered as a trader override. -/
def setUrgency (u : ℤ) (st : TicketState) : TicketState where
  form := st.form
  formUrgency := u
  prefilled := st.prefilled
  overridden := st.overridden
  urgencyManual := some u

/-- The events the prefill interplay reacts to while a client+symbol
context is open: a manual field edit, the application of a prefill
response, a slider move, and a ±10 quick-adjust nudge. -/
inductive TicketEvent
  | edit (f : FField) (v : String)
  | apply (r : PrefillResp)
  | slide (u : ℤ)
  | nudge (d : ℤ)

/-- One step of the order-ticket state machine. -/
def step : TicketEvent → TicketState → TicketState
  | .edit f v => updateField f v
  | .apply r => applyPrefill r
  | .slide u => setUrgency u
  | .nudge d => fun st => setUrgency (nudgeUrgency st.formUrgency d) st

/-- Running a sequence of ticket events. -/
def run (evs : List TicketEvent) (st : TicketState) : TicketState :=
  evs.foldl (fun s e => step e s) st

/-- Whether an event is the application of a prefill response. -/
def isApplyEvent : TicketEvent → Prop
  | .apply _ => True
  | _ => False

/-! ### Order submission, translated from the order-ticket component
(`handleSubmit` and `executeOrder`). -/

/-- Trading capacity (`Capacity` in `lib/types.ts`). -/
inductive Capacity
  | AGENCY
  | PRINCIPAL
  | RISKLESS_PRINCIPAL
  | MIXED
  deriving DecidableEq, Repr

/-- Numeric value of a decimal digit list. -/
def natOfDigits (ds : List Char) : ℕ :=
  ds.foldl (fun a c => a * 10 + (c.toNat - 48)) 0

/-- JavaScript `parseInt` on the strings the ticket holds: an optional
sign followed by a longest digit prefix; `none` models `NaN`. -/
def parseIntJS (s : String) : Option ℤ :=
  let core := fun (cs : List Char) (sign : ℤ) =>
    let ds := cs.takeWhile Char.isDigit
    if ds.isEmpty then (none : Option ℤ) else some (sign * natOfDigits ds)
  match s.toList with
  | '-' :: rest => core rest (-1)
  | '+' :: rest => core rest 1
  | cs => core cs 1

/-- JavaScript `parseFloat` on the strings the ticket holds: an optional
sign, a digit prefix, and an optional fractional part; `none` models
`NaN`. -/
def parseFloatJS (s : String) : Option ℚ :=
  let core := fun (cs : List Char) =>
    let intds := cs.takeWhile Char.isDigit
    let rest := cs.dropWhile Char.isDigit
    match rest with
    | '.' :: fr =>
      let frds := fr.takeWhile Char.isDigit
      if intds.isEmpty ∧ frds.isEmpty then (none : Option ℚ)
      else some ((natOfDigits intds : ℚ) + (natOfDigits frds : ℚ) / (10 ^ frds.length))
    | _ => if intds.isEmpty then none else some (natOfDigits intds)
  match s.toList with
  | '-' :: rest => (core rest).map (fun q => -q)
  | '+' :: rest => core rest
  | cs => core cs

/-- The ticket form state feeding `handleSubmit`/`executeOrder`; numeric
entry fields hold raw strings exactly as the component does. -/
structure OrderForm where
  client_id : String
  symbol : String
  direction : Direction
  order_type : OrderType
  quantity : String
  limit_price : String
  stop_price : String
  algo_type : AlgoType
  start_time : String
  end_time : String
  tif : TIF
  urgency : ℤ
  get_done : Bool
  capacity : Capacity
  order_notes : String
  target_participation_rate : String
  min_order_size : String
  max_order_size : String
  volume_curve : String
  max_volume_pct : String
  display_quantity : String
  aggression_level : String
  deriving Repr

/-- The algo-specific parameter block attached to a create-order
payload; each constructor carries exactly the keys `executeOrder`
serialises for that algo. -/
inductive AlgoParamsPayload
  | pov (target_participation_rate : ℚ) (min_order_size max_order_size : ℤ)
      (aggression_level : String)
  | vwap (volume_curve : String) (max_volume_pct : ℚ) (aggression_level : String)
  | iceberg (display_quantity : ℤ) (aggression_level : String)
  deriving DecidableEq, Repr

/-- The JSON key names of an algo-parameter block. -/
def algoParamsKeys : AlgoParamsPayload → List String
  | .pov _ _ _ _ =>
    ["target_participation_rate", "min_order_size", "max_order_size", "aggression_level"]
  | .vwap _ _ _ => ["volume_curve", "max_volume_pct", "aggression_level"]
  | .iceberg _ _ => ["display_quantity", "aggression_level"]

/-- The `CreateOrderRequest` payload `executeOrder` builds. -/
structure OrderPayload where
  client_id : String
  symbol : String
  direction : Direction
  order_type : OrderType
  quantity : ℤ
  limit_price : Option ℚ
  stop_price : Option ℚ
  algo_type : AlgoType
  tif : TIF
  urgency : ℤ
  get_done : Bool
  capacity : Capacity
  algo_params : Option AlgoParamsPayload
  deriving Repr

/-- The idiom `parseFloat(x) || null`: `NaN` and `0` both collapse to
`null`. -/
def parseFloatOrNull (s : String) : Option ℚ :=
  match parseFloatJS s with
  | none => none
  | some x => if x = 0 then none else some x

/-- The payload construction of `executeOrder`, given the already
validated quantity: price fields are gated on the order type, and the
algo-parameter block is attached per algo type (absent for NONE). -/
def buildPayload (f : OrderForm) (qty : ℤ) : OrderPayload where
  client_id := f.client_id
  symbol := f.symbol
  direction := f.direction
  order_type := f.order_type
  quantity := qty
  limit_price := if f.order_type = .LIMIT then parseFloatOrNull f.limit_price else none
  stop_price := if f.order_type = .STOP_LOSS then parseFloatOrNull f.stop_price else none
  algo_type := f.algo_type
  tif := f.tif
  urgency := f.urgency
  get_done := f.get_done
  capacity := f.capacity
  algo_params :=
    match f.algo_type with
    | .NONE => none
    | .POV => some (.pov ((parseFloatJS f.target_participation_rate).getD 0)
        ((parseIntJS f.min_order_size).getD 0) ((parseIntJS f.max_order_size).getD 0)
        f.aggression_level)
    | .VWAP => some (.vwap f.volume_curve ((parseFloatJS f.max_volume_pct).getD 0)
        f.aggression_level)
    | .ICEBERG => some (.iceberg ((parseIntJS f.display_quantity).getD 0)
        f.aggression_level)

/-- The submit pipeline, `handleSubmit` followed by `executeOrder`: the
quantity string is
parsed with `parseInt`; a missing or non-positive value blocks
submission with a validation error (`!qty || qty <= 0`), otherwise the
payload is built and sent. -/
def handleSubmit (f : OrderForm) : Except (List String) OrderPayload :=
  match parseIntJS f.quantity with
  | none => .error ["Quantity must be a positive number"]
  | some q =>
    if q ≤ 0 then .error ["Quantity must be a positive number"]
    else .ok (buildPayload f q)

/-! ### Concrete fixtures used by the claim witnesses -/

/-- An empty order ticket: blank form, urgency 50, nothing prefilled,
nothing overridden, no manual urgency. -/
def blankTicket : TicketState :=
  ⟨fun _ => "", 50, [], [], none⟩

/-- A prefill response suggesting only a quantity of 100 at urgency
score 70. -/
def qtyResp : PrefillResp :=
  ⟨fun f => if f = .quantity then some "100" else none, 70⟩

/-- A prefill response suggesting an algo type of VWAP and a quantity
of 100 at urgency score 70. -/
def algoResp : PrefillResp :=
  ⟨fun f => if f = .algo_type then some "VWAP"
    else if f = .quantity then some "100" else none, 70⟩

/-- A concrete valid order form: LIMIT POV buy of 150 RELIANCE at
limit 10.05. -/
def sampleForm : OrderForm :=
  ⟨"CLIENT_XYZ", "RELIANCE", .BUY, .LIMIT, "150", "10.05", "", .POV, "10:05", "14:00",
   .GFD, 70, true, .AGENCY, "", "12", "100", "50000", "Historical", "20", "5000",
   "Medium"⟩

/-- The same form with a zero quantity string. -/
def sampleFormZeroQty : OrderForm :=
  ⟨"CLIENT_XYZ", "RELIANCE", .BUY, .LIMIT, "0", "10.05", "", .POV, "10:05", "14:00",
   .GFD, 70, true, .AGENCY, "", "12", "100", "50000", "Historical", "20", "5000",
   "Medium"⟩

/-! ### Helper lemmas -/

theorem ratTrunc_nonneg {q : ℚ} (h : 0 ≤ q) : ratTrunc q = ⌊q⌋ := by
  simp [ratTrunc, h]

theorem deltaSum_timeEntries (ttc : ℚ) : deltaSum (timeEntries ttc) = timeAdj ttc := by
  unfold deltaSum timeEntries timeAdj
  split_ifs <;> simp

theorem deltaSum_tagEntries (tag : ClientTag) : deltaSum (tagEntries tag) = tagAdj tag := by
  cases tag <;> simp [deltaSum, tagEntries, tagAdj]

theorem deltaSum_sizeEntries (s : ℚ) : deltaSum (sizeEntries s) = sizeAdj s := by
  unfold deltaSum sizeEntries sizeAdj
  split_ifs <;> simp

theorem deltaSum_volEntries (v : ℚ) : deltaSum (volEntries v) = volAdj v := by
  unfold deltaSum volEntries volAdj
  split_ifs <;> simp

theorem deltaSum_append (a b : List BreakdownEntry) :
    deltaSum (a ++ b) = deltaSum a + deltaSum b := by
  simp [deltaSum]

theorem deltaSum_notesEntries (n : ParsedNotes) : deltaSum (notesEntries n) = notesAdj n := by
  unfold notesEntries notesAdj
  rw [deltaSum_append, deltaSum_append]
  split_ifs <;> simp [deltaSum]

theorem deltaSum_deadlineEntries (n : ParsedNotes) :
    deltaSum (deadlineEntries n) = deadlineAdj n := by
  unfold deadlineEntries deadlineAdj
  cases n.deadlineMins with
  | none => simp [deltaSum]
  | some d =>
    simp only
    split_ifs <;> simp [deltaSum]

theorem deltaSum_riskEntries (ra : ℚ) : deltaSum (riskEntries ra) = riskTilt ra := by
  simp [deltaSum, riskEntries, riskTilt]

example : ratTrunc (141/2) = 70 := by norm_num [ratTrunc, Int.floor_eq_iff]

example : computeUrgencyScore 90 .eod_compliance 4 (9/5)
    ⟨none, none, false, false, false, none⟩ 60 = 65 := by
  norm_num [computeUrgencyScore, urgencyBreakdown, timeEntries, tagEntries, sizeEntries,
    volEntries, notesEntries, deadlineEntries, riskEntries, deltaSum, ratTrunc,
    Int.floor_eq_iff]

/-! ### Claim theorems -/

/-- C1: the urgency score is baseline 50 plus independent per-factor
adjustments — within the time-to-close and size factors exactly one
bracket (the tightest) fires, never a sum of overlapping brackets —
plus the risk-aversion tilt `(50 − risk_aversion) × 0.15`, the total
truncated to an integer and clamped to [0, 100], for every combination
of inputs.  The closed conjuncts pin the exclusive-bracket behaviour at
inputs where several brackets overlap. -/
theorem urgency_score_decomposition :
    (∀ (ttc : ℚ) (tag : ClientTag) (sizePct vol : ℚ) (n : ParsedNotes) (ra : ℚ),
      computeUrgencyScore ttc tag sizePct vol n ra =
        max 0 (min 100 (ratTrunc (50 + timeAdj ttc + tagAdj tag + sizeAdj sizePct +
          volAdj vol + notesAdj n + deadlineAdj n + riskTilt ra)))) ∧
    timeAdj 5 = 35 ∧ sizeAdj 1 = 10 ∧ sizeAdj 25 = -12 := by
  refine ⟨fun ttc tag sizePct vol n ra => ?_, by norm_num [timeAdj], by norm_num [sizeAdj],
    by norm_num [sizeAdj]⟩
  unfold computeUrgencyScore urgencyBreakdown
  rw [deltaSum_append, deltaSum_append, deltaSum_append, deltaSum_append, deltaSum_append,
    deltaSum_append, deltaSum_timeEntries, deltaSum_tagEntries, deltaSum_sizeEntries,
    deltaSum_volEntries, deltaSum_notesEntries, deltaSum_deadlineEntries, deltaSum_riskEntries]
  ring_nf

/-- C2: the computed urgency score is an integer in [0, 100] for every
input combination, and every value reachable through the UI's ±10
nudge adjustments stays an integer in [0, 100]. -/
theorem urgency_always_in_range :
    (∀ (ttc : ℚ) (tag : ClientTag) (sizePct vol : ℚ) (n : ParsedNotes) (ra : ℚ),
      0 ≤ computeUrgencyScore ttc tag sizePct vol n ra ∧
        computeUrgencyScore ttc tag sizePct vol n ra ≤ 100) ∧
    (∀ u d : ℤ, 0 ≤ nudgeUrgency u d ∧ nudgeUrgency u d ≤ 100) := by
  constructor
  · intro ttc tag sizePct vol n ra
    unfold computeUrgencyScore
    omega
  · intro u d
    unfold nudgeUrgency
    omega

/-- C3: whenever the parsed order notes name an algorithm explicitly,
the resolved algo type is that algorithm at confidence 0.95, regardless
of client tag, urgency, size, history, and volatility — the notes hint
is the first rule in the priority chain. -/
theorem notes_hint_overrides_all (n : ParsedNotes) (u : ℤ) (s : ℚ) (tag : ClientTag)
    (hist : HistPattern) (cv : ℚ) (a : AlgoType) (hh : n.algoHint = some a) :
    resolveAlgoType n u s tag hist cv = (a, 95/100) := by
  unfold resolveAlgoType
  rw [hh]

/-- Witness for C3: notes naming VWAP force VWAP at confidence 0.95 even
for a stealth client at urgency 90 with small size and deep history. -/
theorem notes_hint_overrides_all_witness :
    (⟨some .VWAP, none, false, false, false, none⟩ : ParsedNotes).algoHint = some .VWAP ∧
    resolveAlgoType ⟨some .VWAP, none, false, false, false, none⟩ 90 1 .stealth
      ⟨9, .POV, 2, none, 0⟩ 2 = (.VWAP, 95/100) :=
  ⟨rfl, notes_hint_overrides_all _ 90 1 .stealth ⟨9, .POV, 2, none, 0⟩ 2 .VWAP rfl⟩

/-- C6: the WhyNotSet never contains the chosen algo type, and its key
set is a subset of {NONE, POV, VWAP, ICEBERG} minus the chosen value,
for every context. -/
theorem why_not_excludes_chosen (chosen : AlgoType) (ctx : WhyNotContext) :
    chosen ∉ whyNotKeys chosen ctx ∧
      ∀ a ∈ whyNotKeys chosen ctx, a ∈ allAlgoTypes ∧ a ≠ chosen := by
  cases chosen <;>
    simp [whyNotKeys, whyNotSet, allAlgoTypes, List.filter, List.map]

/-- Witness for C6: with VWAP chosen in a concrete compliance context,
VWAP is absent from the WhyNotSet keys while POV, a present key, lies
in the algo universe and differs from the chosen value. -/
theorem why_not_excludes_chosen_witness :
    AlgoType.VWAP ∉ whyNotKeys .VWAP ⟨4, .eod_compliance, 2, 90, 70⟩ ∧
    (AlgoType.POV ∈ allAlgoTypes ∧ AlgoType.POV ≠ .VWAP) :=
  ⟨(why_not_excludes_chosen .VWAP ⟨4, .eod_compliance, 2, 90, 70⟩).1,
   (why_not_excludes_chosen .VWAP ⟨4, .eod_compliance, 2, 90, 70⟩).2 .POV
     (by simp [whyNotKeys, whyNotSet, allAlgoTypes])⟩

/-- C7 counterexample: the request interface does not carry the claimed
`urgency_override`/`risk_aversion_override` field names, and the
declared response interface carries no `urgency_breakdown` field. -/
theorem interface_shape_counterexample :
    "urgency_override" ∉ prefillRequestFields ∧
    "risk_aversion_override" ∉ prefillRequestFields ∧
    "urgency_breakdown" ∉ prefillResponseFields := by
  decide

/-- C7 amended: the urgency and risk-aversion overrides travel under the
field names `urgency` and `risk_aversion` — the former declared optional
on `PrefillRequest`, the latter sent by `triggerPrefill` without being
declared — and the declared response carries suggestions, explanations,
confidence, urgency_score, computed_urgency, scenario_tag,
scenario_label and why_not but no `urgency_breakdown`; the UI reads an
undeclared `urgency_breakdown` whose entries have shape
{factor, detail, delta}. -/
theorem interface_shape_amended :
    "urgency" ∈ prefillRequestFields ∧
    "risk_aversion" ∉ prefillRequestFields ∧
    "risk_aversion" ∈ triggerPrefillBodyFields ∧
    "urgency_score" ∈ prefillResponseFields ∧
    "computed_urgency" ∈ prefillResponseFields ∧
    "scenario_tag" ∈ prefillResponseFields ∧
    "scenario_label" ∈ prefillResponseFields ∧
    "why_not" ∈ prefillResponseFields ∧
    "urgency_breakdown" ∉ prefillResponseFields ∧
    breakdownEntryFields = ["factor", "detail", "delta"] := by
  decide

/-- C4: when none of the higher-priority rules fires (no notes hint, not
the urgent-small shortcut, no client-tag rule), the historical blend
overrides the urgency×size matrix exactly when at least 3 historical
records exist and `hist_weight × similarity ≥ 0.20`; in that case the
chosen algo is the historical mode algo, otherwise the matrix choice
stands. -/
theorem historical_blend_gate (n : ParsedNotes) (u : ℤ) (s : ℚ) (tag : ClientTag)
    (hist : HistPattern) (cv : ℚ)
    (h1 : n.algoHint = none) (h2 : ¬(u ≥ 85 ∧ s < 5)) (h3 : tagRule tag s = none) :
    (resolveAlgoType n u s tag hist cv).1 =
      if 3 ≤ hist.count ∧
          histWeight hist.count * volSimilarity cv hist.avgVolatility ≥ 1/5 then
        hist.modeAlgo
      else urgencySizeMatrix u s := by
  unfold resolveAlgoType
  rw [h1]
  simp only [if_neg h2, h3]
  split_ifs <;> rfl

/-- Witness for C4 (the spec's history-override example): 5 historical
orders with mode VWAP and historical volatility within 10% of the
current one give `0.30 × (20/21) = 2/7 ≥ 0.20`, so the resolver follows
VWAP even though the urgency×size matrix alone would pick POV. -/
theorem historical_blend_gate_witness :
    histWeight 5 * volSimilarity 2 (21/10) ≥ 1/5 ∧
    (resolveAlgoType ⟨none, none, false, false, false, none⟩ 60 6 .untagged
      ⟨5, .VWAP, 21/10, none, 0⟩ 2).1 = .VWAP ∧
    urgencySizeMatrix 60 6 = .POV := by
  have hsim : histWeight 5 * volSimilarity 2 (21/10) = 2/7 := by
    norm_num [histWeight, volSimilarity, min_def, max_def]
  refine ⟨by rw [hsim]; norm_num, ?_, by norm_num [urgencySizeMatrix]⟩
  rw [historical_blend_gate _ 60 6 .untagged ⟨5, .VWAP, 21/10, none, 0⟩ 2 rfl
    (by norm_num) rfl]
  rw [if_pos]
  exact ⟨by norm_num, by rw [hsim]; norm_num⟩

theorem limitOffsetBps_pos (u : ℤ) (ttc vol : ℚ) : 0 < limitOffsetBps u ttc vol := by
  unfold limitOffsetBps
  split_ifs <;> norm_num

theorem le_roundHalfUpTick {x tick : ℚ} (ht : 0 < tick) (k : ℤ)
    (h : (k : ℚ) * tick ≤ x) : (k : ℚ) * tick ≤ roundHalfUpTick x tick := by
  unfold roundHalfUpTick
  have hk : (k : ℚ) ≤ x / tick := (le_div_iff₀ ht).2 h
  have hfl : k ≤ ⌊x / tick + 1/2⌋ := Int.le_floor.2 (by linarith)
  have : (k : ℚ) ≤ (⌊x / tick + 1/2⌋ : ℤ) := by exact_mod_cast hfl
  exact mul_le_mul_of_nonneg_right this ht.le

theorem roundHalfUpTick_le {x tick : ℚ} (ht : 0 < tick) (k : ℤ)
    (h : x ≤ (k : ℚ) * tick) : roundHalfUpTick x tick ≤ (k : ℚ) * tick := by
  unfold roundHalfUpTick
  have hk : x / tick ≤ (k : ℚ) := (div_le_iff₀ ht).2 h
  have hfl : ⌊x / tick + 1/2⌋ ≤ k := by
    have : ⌊x / tick + 1/2⌋ < k + 1 := by
      rw [Int.floor_lt]
      push_cast
      linarith
    omega
  have : ((⌊x / tick + 1/2⌋ : ℤ) : ℚ) ≤ (k : ℚ) := by exact_mod_cast hfl
  exact mul_le_mul_of_nonneg_right this ht.le

/-- C5 counterexample: with LTP 10.01, tick size 0.05, urgency 10,
100 minutes to close and volatility 1%, the chain picks the 8 bps
offset and round-half-up lands the BUY limit at 10.00 — strictly below
the last traded price, so "BUY limit ≥ LTP" fails as stated. -/
theorem limit_price_counterexample :
    suggestLimitPrice .BUY (1001/100) 10 100 1 (1/20) = 10 ∧
      (10 : ℚ) < 1001/100 := by
  constructor
  · simp only [suggestLimitPrice, roundHalfUpTick]
    have hoff : limitOffsetBps 10 100 1 = 8 := by norm_num [limitOffsetBps]
    rw [hoff]
    rw [show ((1001/100 : ℚ) * (1 + 8/10000) / (1/20) + 1/2) = 20086016/100000 from by
      norm_num]
    rw [show (⌊(20086016/100000 : ℚ)⌋ : ℤ) = 200 from by norm_num [Int.floor_eq_iff]]
    norm_num
  · norm_num

/-- C5 amended: whenever the last traded price is itself on the tick
grid (`ltp = k × tick`, `tick > 0`, `ltp > 0`), the suggested limit
price — `price × (1 ± offset/10000)` with the first-match offset chain,
rounded half-up to the nearest tick — is ≥ LTP for a BUY, ≤ LTP for a
SELL, and always an exact multiple of the tick size. -/
theorem limit_price_amended (dir : Direction) (ltp : ℚ) (u : ℤ) (ttc vol tick : ℚ)
    (htick : 0 < tick) (hltp : 0 < ltp) (k : ℤ) (hk : ltp = (k : ℚ) * tick) :
    (dir = .BUY → ltp ≤ suggestLimitPrice dir ltp u ttc vol tick) ∧
    (dir = .SELL → suggestLimitPrice dir ltp u ttc vol tick ≤ ltp) ∧
    (∃ m : ℤ, suggestLimitPrice dir ltp u ttc vol tick = (m : ℚ) * tick) := by
  have hoff : 0 < limitOffsetBps u ttc vol := limitOffsetBps_pos u ttc vol
  have hofff : 0 ≤ ltp * (limitOffsetBps u ttc vol / 10000) :=
    mul_nonneg hltp.le (by positivity)
  cases dir with
  | BUY =>
    refine ⟨fun _ => ?_, ⟨fun h => Direction.noConfusion h, ?_⟩⟩
    · have hraw : ltp ≤ ltp * (1 + limitOffsetBps u ttc vol / 10000) := by nlinarith
      calc ltp = (k : ℚ) * tick := hk
        _ ≤ suggestLimitPrice .BUY ltp u ttc vol tick :=
          le_roundHalfUpTick htick k (by rw [← hk]; exact hraw)
    · exact ⟨⌊ltp * (1 + limitOffsetBps u ttc vol / 10000) / tick + 1/2⌋, rfl⟩
  | SELL =>
    refine ⟨fun h => Direction.noConfusion h, ⟨fun _ => ?_, ?_⟩⟩
    · have hraw : ltp * (1 - limitOffsetBps u ttc vol / 10000) ≤ ltp := by nlinarith
      calc suggestLimitPrice .SELL ltp u ttc vol tick ≤ (k : ℚ) * tick :=
          roundHalfUpTick_le htick k (by rw [← hk]; exact hraw)
        _ = ltp := hk.symm
    · exact ⟨⌊ltp * (1 - limitOffsetBps u ttc vol / 10000) / tick + 1/2⌋, rfl⟩

/-- Witness for the amended C5: at LTP 10.05 (201 ticks of 0.05) the BUY
limit with the 8 bps offset stays ≥ 10.05 and lands on the tick grid. -/
theorem limit_price_amended_witness :
    (0 : ℚ) < 1/20 ∧ (0 : ℚ) < 201/20 ∧ (201/20 : ℚ) = ((201 : ℤ) : ℚ) * (1/20) ∧
    (201/20 : ℚ) ≤ suggestLimitPrice .BUY (201/20) 10 100 1 (1/20) ∧
    (∃ m : ℤ, suggestLimitPrice .BUY (201/20) 10 100 1 (1/20) = (m : ℚ) * (1/20)) := by
  have h := limit_price_amended .BUY (201/20) 10 100 1 (1/20) (by norm_num) (by norm_num)
    201 (by norm_num)
  exact ⟨by norm_num, by norm_num, by norm_num, h.1 rfl, h.2.2⟩

/-- C8: the quantity hint fires only when the trader has not supplied a
quantity (and the UI applies a quantity suggestion only when the
quantity field is empty); its confidence equals
`0.4 + min(0.3, order_count × 0.04)`, is monotonically non-decreasing
in the historical order count, and never exceeds 0.70. -/
theorem quantity_hint_props :
    (∀ (q : ℚ) (hist : HistPattern), quantityHint (some q) hist = none) ∧
    (∀ (r : PrefillResp) (st : TicketState), st.form .quantity ≠ "" →
      (applyPrefill r st).form .quantity = st.form .quantity) ∧
    (∀ (hist : HistPattern) (q c : ℚ), quantityHint none hist = some (q, c) →
      c = quantityHintConfidence hist.count) ∧
    (∀ n m : ℕ, n ≤ m → quantityHintConfidence n ≤ quantityHintConfidence m) ∧
    (∀ n : ℕ, quantityHintConfidence n ≤ 7/10) := by
  refine ⟨fun q hist => rfl, ?_, ?_, ?_, ?_⟩
  · intro r st h
    have hguard : applyGuard r st.form st.overridden .quantity = false := by
      unfold applyGuard
      simp [h]
    simp [applyPrefill, hguard]
  · intro hist q c hc
    simp only [quantityHint] at hc
    split_ifs at hc with h0
    all_goals
      first
        | exact Option.noConfusion hc
        | (simp only [Option.some.injEq, Prod.mk.injEq] at hc
           exact hc.2.symm)
  · intro n m hnm
    unfold quantityHintConfidence
    have : (n : ℚ) * (4/100) ≤ (m : ℚ) * (4/100) :=
      mul_le_mul_of_nonneg_right (by exact_mod_cast hnm) (by norm_num)
    exact add_le_add_left (min_le_min le_rfl this) _
  · intro n
    unfold quantityHintConfidence
    have : min (3/10 : ℚ) ((n : ℚ) * (4/100)) ≤ 3/10 := min_le_left _ _
    linarith

/-- Witness for C8: a supplied quantity suppresses the hint, a
non-empty quantity field survives a prefill application, and the
confidence at 5 historical orders is 0.60, below the 0.70 cap. -/
theorem quantity_hint_props_witness :
    quantityHint (some 200000) ⟨5, .VWAP, 2, some 210000, 205000⟩ = none ∧
    quantityHintConfidence 3 ≤ quantityHintConfidence 5 ∧
    quantityHintConfidence 5 = 3/5 ∧
    quantityHintConfidence 5 ≤ 7/10 := by
  refine ⟨quantity_hint_props.1 200000 ⟨5, .VWAP, 2, some 210000, 205000⟩,
    quantity_hint_props.2.2.2.1 3 5 (by norm_num), ?_,
    quantity_hint_props.2.2.2.2 5⟩
  norm_num [quantityHintConfidence, min_def]

/-- C9 counterexample: the quantity field is applied and then manually
edited (cleared) by the trader — it is duly recorded in the overridden
set — yet a later application of the same prefill response overwrites
it with the suggestion again, because the quantity branch of
`triggerPrefill` tests emptiness instead of the overridden set. -/
theorem override_frame_counterexample :
    (step (.edit .quantity "") (step (.apply qtyResp) blankTicket)).overridden =
      [.quantity] ∧
    (step (.edit .quantity "") (step (.apply qtyResp) blankTicket)).form .quantity = "" ∧
    (step (.apply qtyResp) (step (.edit .quantity "")
      (step (.apply qtyResp) blankTicket))).form .quantity = "100" := by
  refine ⟨?_, rfl, rfl⟩
  decide

/-- C9 amended: once the trader manually edits a prefilled field it is
recorded in the overridden set, membership there is preserved by every
later event, and every later application of a prefill response leaves
the field's form value unchanged — for every field except `quantity`
and `order_notes`, which are skipped only while non-empty (clearing
them re-enables prefill, as the counterexample shows); and once the
trader manually sets urgency, later prefill responses never overwrite
the form's urgency with the computed score. -/
theorem override_frame_amended :
    (∀ (st : TicketState) (f : FField) (v : String), f ∈ st.prefilled →
      f ∈ (step (.edit f v) st).overridden) ∧
    (∀ (st : TicketState) (f : FField) (e : TicketEvent), f ∈ st.overridden →
      f ∈ (step e st).overridden) ∧
    (∀ (st : TicketState) (f : FField) (r : PrefillResp), f ∈ st.overridden →
      f ≠ .quantity → f ≠ .order_notes →
      (step (.apply r) st).form f = st.form f) ∧
    (∀ (st : TicketState) (f : FField) (evs : List TicketEvent), f ∈ st.overridden →
      f ≠ .quantity → f ≠ .order_notes → (∀ e ∈ evs, isApplyEvent e) →
      (run evs st).form f = st.form f) ∧
    (∀ (st : TicketState) (u : ℤ), (step (.slide u) st).urgencyManual = some u) ∧
    (∀ (st : TicketState) (e : TicketEvent), st.urgencyManual ≠ none →
      (step e st).urgencyManual ≠ none) ∧
    (∀ (st : TicketState) (r : PrefillResp), st.urgencyManual ≠ none →
      (step (.apply r) st).formUrgency = st.formUrgency) := by
  have hguard : ∀ (r : PrefillResp) (st : TicketState) (f : FField),
      f ∈ st.overridden → f ≠ .quantity → f ≠ .order_notes →
      applyGuard r st.form st.overridden f = false := by
    intro r st f hf hq hn
    unfold applyGuard
    rw [if_neg (by simp [hq, hn])]
    split_ifs <;> simp [hf]
  have happly : ∀ (st : TicketState) (f : FField) (r : PrefillResp), f ∈ st.overridden →
      f ≠ .quantity → f ≠ .order_notes →
      (step (.apply r) st).form f = st.form f := by
    intro st f r hf hq hn
    simp [step, applyPrefill, hguard r st f hf hq hn]
  have hpreserve : ∀ (st : TicketState) (f : FField) (e : TicketEvent),
      f ∈ st.overridden → f ∈ (step e st).overridden := by
    intro st f e hf
    cases e with
    | edit g v =>
      simp only [step, updateField]
      split_ifs <;> simp [hf]
    | apply r => exact hf
    | slide u => exact hf
    | nudge d => exact hf
  refine ⟨?_, hpreserve, happly, ?_, fun st u => rfl, ?_, ?_⟩
  · intro st f v hf
    simp [step, updateField, hf]
  · intro st f evs
    induction evs generalizing st with
    | nil => intro _ _ _ _; rfl
    | cons e rest ih =>
      intro hf hq hn hall
      have he : isApplyEvent e := hall e (by simp)
      cases e with
      | edit g v => exact absurd he (by simp [isApplyEvent])
      | slide u => exact absurd he (by simp [isApplyEvent])
      | nudge d => exact absurd he (by simp [isApplyEvent])
      | apply r =>
        have h1 : (run rest (step (.apply r) st)).form f =
            (step (.apply r) st).form f := by
          refine ih (step (.apply r) st) (hpreserve st f _ hf) hq hn ?_
          intro e' he'
          exact hall e' (by simp [he'])
        rw [show run (.apply r :: rest) st = run rest (step (.apply r) st) from rfl,
          h1, happly st f r hf hq hn]
  · intro st e hu
    cases e with
    | edit g v => exact hu
    | apply r => exact hu
    | slide u => simp [step, setUrgency]
    | nudge d => simp [step, setUrgency]
  · intro st r hu
    simp [step, applyPrefill, hu]

/-- Witness for the amended C9: with `algo_type` prefilled and then
manually edited to POV, the field enters the overridden set and a later
application of the same response leaves the edited value untouched; a
manually set urgency of 40 likewise survives a later application. -/
theorem override_frame_amended_witness :
    FField.algo_type ∈
      (step (.edit .algo_type "POV") (step (.apply algoResp) blankTicket)).overridden ∧
    (step (.apply algoResp)
        (step (.edit .algo_type "POV") (step (.apply algoResp) blankTicket))).form
        .algo_type =
      (step (.edit .algo_type "POV") (step (.apply algoResp) blankTicket)).form
        .algo_type ∧
    (step (.apply algoResp) (step (.slide 40) blankTicket)).formUrgency =
      (step (.slide 40) blankTicket).formUrgency := by
  have h1 : FField.algo_type ∈ (step (.apply algoResp) blankTicket).prefilled := by
    decide
  have h2 := override_frame_amended.1 (step (.apply algoResp) blankTicket)
    .algo_type "POV" h1
  refine ⟨h2, override_frame_amended.2.2.1 _ .algo_type algoResp h2
    (by decide) (by decide), ?_⟩
  exact override_frame_amended.2.2.2.2.2.2 (step (.slide 40) blankTicket) algoResp
    (by decide)

/-- C10: every submitted payload has a positive integer quantity
(submission is blocked with a validation error otherwise); the limit
price is non-null only for LIMIT orders and the stop price only for
STOP_LOSS orders; and the algo-parameter block is present exactly when
the algo type is not NONE, carrying the POV, VWAP or ICEBERG key set
matching the chosen algo. -/
theorem submit_payload_invariants :
    (∀ (f : OrderForm) (p : OrderPayload), handleSubmit f = .ok p → 0 < p.quantity) ∧
    (∀ f : OrderForm, (∀ q, parseIntJS f.quantity = some q → q ≤ 0) →
      handleSubmit f = .error ["Quantity must be a positive number"]) ∧
    (∀ (f : OrderForm) (p : OrderPayload), handleSubmit f = .ok p →
      (p.limit_price ≠ none → p.order_type = .LIMIT) ∧
      (p.stop_price ≠ none → p.order_type = .STOP_LOSS)) ∧
    (∀ (f : OrderForm) (p : OrderPayload), handleSubmit f = .ok p →
      ((p.algo_params = none) ↔ p.algo_type = .NONE) ∧
      p.algo_params.map algoParamsKeys =
        (match p.algo_type with
         | .NONE => none
         | .POV => some ["target_participation_rate", "min_order_size",
             "max_order_size", "aggression_level"]
         | .VWAP => some ["volume_curve", "max_volume_pct", "aggression_level"]
         | .ICEBERG => some ["display_quantity", "aggression_level"])) := by
  have hok : ∀ (f : OrderForm) (p : OrderPayload), handleSubmit f = .ok p →
      ∃ q : ℤ, 0 < q ∧ parseIntJS f.quantity = some q ∧ p = buildPayload f q := by
    intro f p hp
    unfold handleSubmit at hp
    split at hp
    next => exact Except.noConfusion hp
    next q hq' =>
      split_ifs at hp with hq
      all_goals
        first
          | exact Except.noConfusion hp
          | (simp only [Except.ok.injEq] at hp
             exact ⟨q, by omega, hq', hp.symm⟩)
  refine ⟨?_, ?_, ?_, ?_⟩
  · intro f p hp
    obtain ⟨q, hq, -, rfl⟩ := hok f p hp
    simpa [buildPayload] using hq
  · intro f hall
    unfold handleSubmit
    split
    next => rfl
    next q hq' => rw [if_pos (hall q hq')]
  · intro f p hp
    obtain ⟨q, hq, -, rfl⟩ := hok f p hp
    simp only [buildPayload]
    constructor
    · intro hlim
      by_contra hot
      rw [if_neg hot] at hlim
      exact hlim rfl
    · intro hstop
      by_contra hot
      rw [if_neg hot] at hstop
      exact hstop rfl
  · intro f p hp
    obtain ⟨q, hq, -, rfl⟩ := hok f p hp
    simp only [buildPayload]
    cases ha : f.algo_type <;> simp [ha, algoParamsKeys]

/-- Witness for C10: the sample form submits with quantity 150 > 0, a
POV parameter block with exactly the POV keys, and the zero-quantity
variant is blocked with the validation error. -/
theorem submit_payload_invariants_witness :
    handleSubmit sampleForm = .ok (buildPayload sampleForm 150) ∧
    0 < (buildPayload sampleForm 150).quantity ∧
    ((buildPayload sampleForm 150).algo_params = none ↔
      (buildPayload sampleForm 150).algo_type = .NONE) ∧
    handleSubmit sampleFormZeroQty = .error ["Quantity must be a positive number"] := by
  have hsub : handleSubmit sampleForm = .ok (buildPayload sampleForm 150) := by
    rfl
  refine ⟨hsub, submit_payload_invariants.1 sampleForm _ hsub,
    (submit_payload_invariants.2.2.2 sampleForm _ hsub).1, ?_⟩
  refine submit_payload_invariants.2.1 sampleFormZeroQty ?_
  intro q hq
  have : parseIntJS sampleFormZeroQty.quantity = some 0 := by rfl
  rw [this] at hq
  simp only [Option.some.injEq] at hq
  omega

end Prefill
